import Mathlib

/-!
Shallow embedding of `src/server/src/services/minecraft-status/minecraft-status.service.ts`
(the `MinecraftStatusManager` class) and proofs about its polling / caching /
presence-notification behaviour.

Conventions of the embedding:
* `Date` values are modelled as `Nat` timestamps; every `new Date()` inside one
  fetch-apply-notify cycle receives the cycle's time `now`, passed in as a parameter.
* The outcome of the `fetch` + `response.ok` check + `response.json()` decode is an
  explicit `FetchResult` parameter (the network is external to the program).
* The Discord client is modelled as a `Bool`: `true` means a client with a `user`
  is registered (`this.discordClient` set and `this.discordClient.user` non-null),
  so a sink call inside `updateDiscordStatus` actually reaches `setPresence`.
* `setPresence` possibly throwing is modelled by the `sinkThrows : Bool` parameter:
  when `true`, every invocation of `updateDiscordStatus` raises.
* JavaScript field-value semantics are captured by `ManagerState` / `updateStatus`;
  object identity (mutation in place vs construction of a fresh record, relevant to
  readers that retained a reference returned by `getStatus`) is captured separately
  by `AllocState` / `updateStatusAlloc` below.
-/

/-- `MinecraftPlayer` interface: a player currently on the Minecraft server. -/
structure MinecraftPlayer where
  name : String
  uuid : String
deriving DecidableEq, Repr

/-- `MinecraftStatus` interface: the current status of the Minecraft server.
`lastUpdated : Date` is modelled as a `Nat` timestamp. -/
structure MinecraftStatus where
  online : Bool
  playerCount : Nat
  maxPlayers : Nat
  players : List MinecraftPlayer
  motd : String
  version : String
  lastUpdated : Nat
deriving DecidableEq, Repr

/-- Entry of `McStatusResponse.players.list`: `{ name_clean, uuid }`. -/
structure McPlayerEntry where
  name_clean : String
  uuid : String
deriving DecidableEq, Repr

/-- `McStatusResponse.players`: `{ online: number, max: number, list?: [...] }`. -/
structure McPlayers where
  online : Nat
  max : Nat
  list : Option (List McPlayerEntry)
deriving DecidableEq, Repr

/-- `McStatusResponse.version`: `{ name_clean: string }`. -/
structure McVersion where
  name_clean : String
deriving DecidableEq, Repr

/-- `McStatusResponse.motd`: `{ clean: string }`. -/
structure McMotd where
  clean : String
deriving DecidableEq, Repr

/-- `McStatusResponse` interface: response structure from the mcstatus.io API.
The `host` and `port` echo fields are never read by the service and are omitted. -/
structure McStatusResponse where
  online : Bool
  players : Option McPlayers
  version : Option McVersion
  motd : Option McMotd
deriving DecidableEq, Repr

/-- Outcome of the `fetch` call, the `response.ok` check and the `response.json()`
decode at the top of `updateStatus` (lines 135-148).  `fetchError` covers a network
error or a decode error (either throws), `httpError s` covers `!response.ok`
(the code throws "API request failed with status s"), `ok data` is a decoded body. -/
inductive FetchResult where
  | fetchError : FetchResult
  | httpError (status : Nat) : FetchResult
  | ok (data : McStatusResponse) : FetchResult
deriving DecidableEq, Repr

/-- A `FetchResult` that sends `updateStatus` into its `catch` block: a thrown
network/decode error, a non-ok HTTP status, or a body with `online: false`
(the code throws "Server reported as offline" on it, line 150-152). -/
def FetchResult.isFailure : FetchResult → Prop
  | .fetchError => True
  | .httpError _ => True
  | .ok data => data.online = false

instance : DecidablePred FetchResult.isFailure := by
  intro f
  cases f <;> simp [FetchResult.isFailure] <;> infer_instance

/-- Mutable fields of a `MinecraftStatusManager` instance that the polling logic
reads or writes: `currentStatus`, the timer handle (`running` is the truthiness of
`updateInterval`), and whether a Discord client (with a `user`) is registered. -/
structure ManagerState where
  currentStatus : Option MinecraftStatus
  running : Bool
  discordClient : Bool
deriving DecidableEq, Repr

/-- Result of one run of `updateStatus`: the manager state afterwards, how many
times `updateDiscordStatus` reached `setPresence`, and whether the `updateStatus`
promise itself rejected (which happens only when the sink throws inside the
`catch` block, where no further handler exists). -/
structure CycleResult where
  state : ManagerState
  sinkCalls : Nat
  rejected : Bool
deriving DecidableEq, Repr

/-- The snapshot built by the success path of `updateStatus` (lines 157-169):
`playerCount := data.players?.online ?? 0`, `maxPlayers := data.players?.max ?? 0`,
`players := data.players?.list?.map(...) ?? []`, `motd := data.motd?.clean ?? ""`,
`version := data.version?.name_clean ?? "Unknown"`, `lastUpdated := new Date()`. -/
def successSnapshot (data : McStatusResponse) (now : Nat) : MinecraftStatus :=
  { online := true
    playerCount := (data.players.map McPlayers.online).getD 0
    maxPlayers := (data.players.map McPlayers.max).getD 0
    players := ((data.players.bind McPlayers.list).map
        (List.map fun p => { name := p.name_clean, uuid := p.uuid })).getD []
    motd := (data.motd.map McMotd.clean).getD ""
    version := (data.version.map McVersion.name_clean).getD "Unknown"
    lastUpdated := now }

/-- The all-zero/empty offline snapshot synthesized by the `catch` block of
`updateStatus` when no previous snapshot exists (lines 185-193). -/
def offlineSnapshot (now : Nat) : MinecraftStatus :=
  { online := false, playerCount := 0, maxPlayers := 0, players := [],
    motd := "", version := "", lastUpdated := now }

/-- The `catch` block of `updateStatus` (lines 178-199): if a snapshot exists,
mutate it to `online := false` with a refreshed `lastUpdated`; otherwise synthesize
the all-zero/empty offline snapshot; then, if a Discord client is registered,
invoke `updateDiscordStatus` (unconditionally — no player-count comparison here).
`callsBefore` counts sink invocations already made earlier in the same cycle. -/
def catchBranch (s : ManagerState) (sinkThrows : Bool) (now : Nat)
    (callsBefore : Nat) : CycleResult :=
  let s' : ManagerState :=
    match s.currentStatus with
    | some cur =>
        { s with currentStatus := some { cur with online := false, lastUpdated := now } }
    | none =>
        { s with currentStatus := some (offlineSnapshot now) }
  if s'.discordClient = true then
    { state := s', sinkCalls := callsBefore + 1, rejected := sinkThrows }
  else
    { state := s', sinkCalls := callsBefore, rejected := false }

/-- `updateStatus` (lines 133-200).  The success path stores `successSnapshot`,
then invokes the sink iff `previousPlayerCount !== newPlayerCount` and a client is
registered; a sink throw there is caught by the same `try`'s `catch`, which then
runs on the just-stored success snapshot.  Any fetch/HTTP/decode failure or a body
with `online: false` goes straight to `catchBranch`. -/
def updateStatus (s : ManagerState) (fetch : FetchResult) (sinkThrows : Bool)
    (now : Nat) : CycleResult :=
  match fetch with
  | .fetchError => catchBranch s sinkThrows now 0
  | .httpError _ => catchBranch s sinkThrows now 0
  | .ok data =>
      if data.online = false then
        catchBranch s sinkThrows now 0
      else
        let previousPlayerCount := s.currentStatus.map MinecraftStatus.playerCount
        let newPlayerCount := (data.players.map McPlayers.online).getD 0
        let s' := { s with currentStatus := some (successSnapshot data now) }
        if previousPlayerCount ≠ some newPlayerCount ∧ s.discordClient = true then
          if sinkThrows then
            catchBranch s' sinkThrows now 1
          else
            { state := s', sinkCalls := 1, rejected := false }
        else
          { state := s', sinkCalls := 0, rejected := false }

/-- `getStatus` (lines 231-233): returns `this.currentStatus` (possibly null). -/
def getStatus (s : ManagerState) : Option MinecraftStatus :=
  s.currentStatus

/-- `getPlayers` (lines 239-241): `this.currentStatus?.players ?? []`. -/
def getPlayers (s : ManagerState) : List MinecraftPlayer :=
  (s.currentStatus.map MinecraftStatus.players).getD []

/-- `getPlayerCount` (lines 247-249): `this.currentStatus?.playerCount ?? 0`. -/
def getPlayerCount (s : ManagerState) : Nat :=
  (s.currentStatus.map MinecraftStatus.playerCount).getD 0

/-- `isOnline` (lines 255-257): `this.currentStatus?.online ?? false`. -/
def isOnline (s : ManagerState) : Bool :=
  (s.currentStatus.map MinecraftStatus.online).getD false

/-- `forceUpdate` (lines 264-267): one `updateStatus` cycle, returning the
resulting `currentStatus`. -/
def forceUpdate (s : ManagerState) (fetch : FetchResult) (sinkThrows : Bool)
    (now : Nat) : CycleResult × Option MinecraftStatus :=
  let r := updateStatus s fetch sinkThrows now
  (r, r.state.currentStatus)

/-- Result of one call to `start`: the state afterwards, whether this call ran a
fetch-apply-notify cycle, whether this call armed a (new) repeating interval timer,
and the sink-invocation count of the cycle it ran (0 when it ran none). -/
structure StartResult where
  state : ManagerState
  cycleRan : Bool
  armedTimer : Bool
  sinkCalls : Nat
deriving DecidableEq, Repr

/-- `start` (lines 95-114): if `this.updateInterval` is set, warn and return
without fetching; otherwise record the client (the parameter is always truthy in
the model, mirroring the `if (discordClient)` guard on a non-null argument), run
one immediate `updateStatus` cycle, and — provided that cycle's promise did not
reject — arm the repeating interval timer. -/
def start (s : ManagerState) (fetch : FetchResult) (sinkThrows : Bool)
    (now : Nat) : StartResult :=
  if s.running = true then
    { state := s, cycleRan := false, armedTimer := false, sinkCalls := 0 }
  else
    let s1 := { s with discordClient := true }
    let r := updateStatus s1 fetch sinkThrows now
    if r.rejected then
      { state := r.state, cycleRan := true, armedTimer := false, sinkCalls := r.sinkCalls }
    else
      { state := { r.state with running := true }, cycleRan := true,
        armedTimer := true, sinkCalls := r.sinkCalls }

/-- `stop` (lines 119-125): if the interval timer is armed, clear it; the cached
snapshot and the registered client are not touched. -/
def stop (s : ManagerState) : ManagerState :=
  if s.running = true then { s with running := false } else s

/-- Heap-and-reference view of the cache, capturing the object identity of
snapshots (which `ManagerState` abstracts away): `heap` is the arena of snapshot
records ever constructed (a record's index is its identity, stable because the
model only appends or overwrites fields in place), `cur` is the reference held in
`this.currentStatus`.  A JavaScript object literal assignment
(`this.currentStatus = { ... }`, lines 157-169 and 185-193) allocates a fresh
record; the field assignments `this.currentStatus.online = false` and
`this.currentStatus.lastUpdated = new Date()` (lines 182-183) write into the
record the current reference points at. -/
structure AllocState where
  heap : List MinecraftStatus
  cur : Option Nat
deriving DecidableEq, Repr

/-- Identity-tracking translation of the `catch` block of `updateStatus`
(lines 178-199), cache effect only: with an existing snapshot it overwrites the
`online` and `lastUpdated` fields of that same record in place; with none it
allocates the fresh all-zero offline record. -/
def catchBranchAlloc (s : AllocState) (now : Nat) : AllocState :=
  match s.cur with
  | some i =>
      match s.heap[i]? with
      | some cur =>
          { s with heap := s.heap.set i { cur with online := false, lastUpdated := now } }
      | none => s
  | none => { heap := s.heap ++ [offlineSnapshot now], cur := some s.heap.length }

/-- Identity-tracking translation of `updateStatus` (lines 133-200), cache effect
only (sink invocations do not touch the cache and the sink is assumed not to
throw): the success path allocates a fresh record holding `successSnapshot` and
repoints `this.currentStatus` at it; every failure goes to `catchBranchAlloc`. -/
def updateStatusAlloc (s : AllocState) (fetch : FetchResult) (now : Nat) : AllocState :=
  match fetch with
  | .fetchError => catchBranchAlloc s now
  | .httpError _ => catchBranchAlloc s now
  | .ok data =>
      if data.online = false then
        catchBranchAlloc s now
      else
        { heap := s.heap ++ [successSnapshot data now], cur := some s.heap.length }

/-- `getStatus` in the identity-tracking view: returns the reference (not a copy)
held in `this.currentStatus`. -/
def getStatusAlloc (s : AllocState) : Option Nat :=
  s.cur

/-- What a caller holding reference `i` (as previously returned by `getStatus`)
observes when reading through it later. -/
def readRef (s : AllocState) (i : Nat) : Option MinecraftStatus :=
  s.heap[i]?

/-- The data-model invariant of the spec (§3): `playerCount == len(players)`
whenever `players` is non-empty. -/
def statusInv (st : MinecraftStatus) : Prop :=
  st.players ≠ [] → st.playerCount = st.players.length

instance : DecidablePred statusInv := by
  intro st
  unfold statusInv
  infer_instance

/-- Configuration fixed by the private constructor (lines 56-60): `host`, `port`
(default 25565) and `updateIntervalMs` (default 30000). -/
structure ManagerConfig where
  host : String
  port : Nat
  updateIntervalMs : Nat
deriving DecidableEq, Repr

/-- `getInstance` (lines 71-87) as a transition on the static `instance` slot
(`none` before the first successful creation).  `host?: string` is an
`Option String`; the JavaScript guard `if (!host)` is true both for an absent
argument and for an empty string.  `port`/`updateIntervalMs` defaults are applied
by the constructor when the arguments are `undefined`.  Returns the acquired
instance's configuration together with the new static slot, or the thrown error. -/
def getInstance (inst : Option ManagerConfig) (host : Option String)
    (port : Option Nat) (updateIntervalMs : Option Nat) :
    Except String (ManagerConfig × Option ManagerConfig) :=
  match inst with
  | some c => .ok (c, some c)
  | none =>
      match host with
      | none => .error "Host must be provided when creating instance"
      | some h =>
          if h = "" then
            .error "Host must be provided when creating instance"
          else
            let c : ManagerConfig :=
              { host := h, port := port.getD 25565,
                updateIntervalMs := updateIntervalMs.getD 30000 }
            .ok (c, some c)

/-! ## Helper lemmas shared by the claim theorems -/

/-- The snapshot value the `catch` block leaves in the cache: the previous
snapshot degraded to `online := false` with a refreshed `lastUpdated`, or the
synthesized offline snapshot when none existed. -/
def degradeSnapshot (cur : Option MinecraftStatus) (now : Nat) : MinecraftStatus :=
  match cur with
  | some c => { c with online := false, lastUpdated := now }
  | none => offlineSnapshot now

/-- The manager state after the `catch` block: only `currentStatus` changes,
to the degraded previous snapshot or the synthesized offline snapshot. -/
theorem catchBranch_state (s : ManagerState) (st : Bool) (now k : Nat) :
    (catchBranch s st now k).state =
      { s with currentStatus := some (degradeSnapshot s.currentStatus now) } := by
  unfold catchBranch degradeSnapshot
  cases h : s.currentStatus <;> simp [h] <;> split <;> rfl

/-- Sink invocations of the `catch` block: exactly one more than already made iff
a Discord client is registered. -/
theorem catchBranch_sinkCalls (s : ManagerState) (st : Bool) (now k : Nat) :
    (catchBranch s st now k).sinkCalls =
      if s.discordClient = true then k + 1 else k := by
  unfold catchBranch
  cases h : s.currentStatus <;> simp [h] <;> split <;> simp_all

/-- The `catch` block rethrows (the `updateStatus` promise rejects) iff the sink
throws and a client is registered to call it on. -/
theorem catchBranch_rejected (s : ManagerState) (st : Bool) (now k : Nat) :
    (catchBranch s st now k).rejected =
      (st && s.discordClient) := by
  unfold catchBranch
  cases h : s.currentStatus <;> cases hd : s.discordClient <;> cases st <;>
    simp [h, hd]

/-- Every failure outcome sends `updateStatus` into the `catch` block. -/
theorem updateStatus_failure (s : ManagerState) (f : FetchResult) (st : Bool)
    (now : Nat) (hf : f.isFailure) :
    updateStatus s f st now = catchBranch s st now 0 := by
  cases f with
  | fetchError => rfl
  | httpError status => rfl
  | ok data =>
      unfold FetchResult.isFailure at hf
      simp [updateStatus, hf]

/-- With a non-throwing sink, `updateStatus` never rejects. -/
theorem updateStatus_rejected_false (s : ManagerState) (f : FetchResult)
    (now : Nat) : (updateStatus s f false now).rejected = false := by
  cases f with
  | fetchError => simp [updateStatus, catchBranch_rejected]
  | httpError status => simp [updateStatus, catchBranch_rejected]
  | ok data =>
      by_cases h : data.online = false
      · simp [updateStatus, h, catchBranch_rejected]
      · simp only [updateStatus]
        rw [if_neg h]
        split
        · split
          · simp_all
          · rfl
        · rfl

/-- The success-path notification condition of line 171:
`previousPlayerCount !== newPlayerCount && this.discordClient`. -/
def notifyCondition (s : ManagerState) (data : McStatusResponse) : Prop :=
  s.currentStatus.map MinecraftStatus.playerCount ≠
      some ((data.players.map McPlayers.online).getD 0) ∧
    s.discordClient = true

instance (s : ManagerState) (data : McStatusResponse) :
    Decidable (notifyCondition s data) := by
  unfold notifyCondition
  infer_instance

/-- Full description of a success cycle with a non-throwing sink: the success
snapshot is stored, the sink is invoked exactly when the notification condition
holds, and the promise resolves. -/
theorem updateStatus_success (s : ManagerState) (data : McStatusResponse)
    (now : Nat) (h : data.online = true) :
    updateStatus s (FetchResult.ok data) false now =
      ⟨⟨some (successSnapshot data now), s.running, s.discordClient⟩,
        if notifyCondition s data then 1 else 0, false⟩ := by
  have h' : ¬ data.online = false := by simp [h]
  have hcd : (s.currentStatus.map MinecraftStatus.playerCount ≠
      some ((data.players.map McPlayers.online).getD 0) ∧ s.discordClient = true) ↔
      notifyCondition s data := Iff.rfl
  simp only [updateStatus]
  rw [if_neg h']
  by_cases hc : notifyCondition s data
  · rw [if_pos (hcd.mpr hc), if_pos hc]
    rfl
  · rw [if_neg (fun hx => hc (hcd.mp hx)), if_neg hc]

/-- Full description of a success cycle whose sink call throws: if the
notification condition holds, the `catch` block degrades the just-stored success
snapshot to offline, invokes the sink a second time, and the promise rejects. -/
theorem updateStatus_success_sinkThrow (s : ManagerState) (data : McStatusResponse)
    (now : Nat) (h : data.online = true) (hc : notifyCondition s data) :
    updateStatus s (FetchResult.ok data) true now =
      ⟨⟨some (degradeSnapshot (some (successSnapshot data now)) now), s.running,
          s.discordClient⟩, 2, true⟩ := by
  have h' : ¬ data.online = false := by simp [h]
  have hcd : (s.currentStatus.map MinecraftStatus.playerCount ≠
      some ((data.players.map McPlayers.online).getD 0) ∧ s.discordClient = true) ↔
      notifyCondition s data := Iff.rfl
  simp only [updateStatus]
  rw [if_neg h']
  rw [if_pos (hcd.mpr hc)]
  simp [catchBranch, degradeSnapshot, hc.2]

/-! ## Claim C1 -/

/-- C1 counterexample.  A failure cycle following a successful cycle (cached
count 4, client registered) leaves the player count unchanged at 4, yet the
presence sink is invoked once — the `catch` block notifies unconditionally —
where the claim requires zero invocations on a cycle with an unchanged count. -/
theorem C1_counterexample :
    (updateStatus ⟨some ⟨true, 4, 20, [], "", "Unknown", 1⟩, true, true⟩
        FetchResult.fetchError false 2).sinkCalls = 1 ∧
    getPlayerCount (updateStatus ⟨some ⟨true, 4, 20, [], "", "Unknown", 1⟩, true, true⟩
        FetchResult.fetchError false 2).state =
      getPlayerCount ⟨some ⟨true, 4, 20, [], "", "Unknown", 1⟩, true, true⟩ := by
  decide

/-- C1 (amended).  Per fetch-apply-notify cycle with a non-throwing sink, the
sink is invoked at most once; on a success cycle it is invoked exactly once iff
the new player count differs from the count of the snapshot immediately before
the apply and a client is registered; on a failure cycle it is invoked exactly
once whenever a client is registered, regardless of the (preserved) count. -/
theorem C1_sink_policy (s : ManagerState) (data : McStatusResponse)
    (f : FetchResult) (now : Nat) :
    (updateStatus s f false now).sinkCalls ≤ 1 ∧
    (data.online = true →
      (updateStatus s (FetchResult.ok data) false now).sinkCalls =
        if notifyCondition s data then 1 else 0) ∧
    (f.isFailure →
      (updateStatus s f false now).sinkCalls =
        if s.discordClient = true then 1 else 0) := by
  refine ⟨?_, ?_, ?_⟩
  · by_cases hf : f.isFailure
    · rw [updateStatus_failure s f false now hf, catchBranch_sinkCalls]
      split <;> simp
    · cases f with
      | fetchError => exact absurd trivial hf
      | httpError status => exact absurd trivial hf
      | ok d =>
          have h : d.online = true := by
            simpa [FetchResult.isFailure] using hf
          rw [updateStatus_success s d now h]
          split <;> simp
  · intro h
    rw [updateStatus_success s data now h]
  · intro hf
    rw [updateStatus_failure s f false now hf, catchBranch_sinkCalls]

/-- C1 witness: on a concrete failure cycle with a registered client the sink is
invoked exactly once, and on a concrete first success cycle exactly once. -/
theorem C1_sink_policy_witness :
    (updateStatus ⟨none, false, true⟩ FetchResult.fetchError false 0).sinkCalls = 1 ∧
    (updateStatus ⟨none, false, true⟩
        (FetchResult.ok ⟨true, some ⟨2, 10, none⟩, none, none⟩) false 0).sinkCalls = 1 := by
  constructor
  · have h := (C1_sink_policy ⟨none, false, true⟩
      ⟨true, some ⟨2, 10, none⟩, none, none⟩ FetchResult.fetchError 0).2.2 trivial
    simpa using h
  · have h := (C1_sink_policy ⟨none, false, true⟩
      ⟨true, some ⟨2, 10, none⟩, none, none⟩ FetchResult.fetchError 0).2.1 rfl
    rw [h]
    decide

/-! ## Claim C2 -/

/-- C2.  On every failing cycle with an existing previous snapshot, the stored
snapshot afterwards preserves `playerCount`, `maxPlayers`, `players`, `motd`
and `version`, has `online = false`, and carries the cycle's refreshed
`lastUpdated`; no reset to zero/empty is observable. -/
theorem C2_preserve_on_failure (s : ManagerState) (prev : MinecraftStatus)
    (f : FetchResult) (st : Bool) (now : Nat)
    (hprev : s.currentStatus = some prev) (hf : f.isFailure) :
    ∃ q, (updateStatus s f st now).state.currentStatus = some q ∧
      q.playerCount = prev.playerCount ∧ q.maxPlayers = prev.maxPlayers ∧
      q.players = prev.players ∧ q.motd = prev.motd ∧ q.version = prev.version ∧
      q.online = false ∧ q.lastUpdated = now := by
  rw [updateStatus_failure s f st now hf]
  refine ⟨degradeSnapshot s.currentStatus now, ?_, ?_, ?_, ?_, ?_, ?_, ?_, ?_⟩ <;>
    simp [catchBranch_state, hprev, degradeSnapshot]

/-- C2 witness: a concrete success snapshot (5 players, roster, motd, version)
followed by a failing cycle keeps every informational field and flips `online`. -/
theorem C2_preserve_on_failure_witness :
    ∃ q, (updateStatus ⟨some ⟨true, 5, 10, [⟨"alice", "u1"⟩], "m", "1.20", 1⟩, true, true⟩
        FetchResult.fetchError false 2).state.currentStatus = some q ∧
      q.playerCount = 5 ∧ q.maxPlayers = 10 ∧ q.players = [⟨"alice", "u1"⟩] ∧
      q.motd = "m" ∧ q.version = "1.20" ∧ q.online = false ∧ q.lastUpdated = 2 :=
  C2_preserve_on_failure _ ⟨true, 5, 10, [⟨"alice", "u1"⟩], "m", "1.20", 1⟩
    FetchResult.fetchError false 2 rfl trivial

/-! ## Claim C3 -/

/-- C3 counterexample.  A success cycle whose sink call throws does not leave the
success snapshot in the cache: with the sink throwing the stored snapshot is
offline, without it the stored snapshot is online — the cache state differs. -/
theorem C3_counterexample :
    (updateStatus ⟨none, false, true⟩
        (FetchResult.ok ⟨true, some ⟨2, 10, none⟩, none, none⟩) true 5).state.currentStatus ≠
      (updateStatus ⟨none, false, true⟩
        (FetchResult.ok ⟨true, some ⟨2, 10, none⟩, none, none⟩) false 5).state.currentStatus ∧
    isOnline (updateStatus ⟨none, false, true⟩
        (FetchResult.ok ⟨true, some ⟨2, 10, none⟩, none, none⟩) true 5).state = false ∧
    isOnline (updateStatus ⟨none, false, true⟩
        (FetchResult.ok ⟨true, some ⟨2, 10, none⟩, none, none⟩) false 5).state = true := by
  decide

/-- C3 (amended).  On a success cycle, if no sink call happens (count unchanged
or no client), a throwing sink is indistinguishable from a non-throwing one; but
if the sink is called and throws, the `try`'s own `catch` block runs: the stored
snapshot is the decoded success snapshot degraded to `online = false`, the sink
is invoked a second time, and the `updateStatus` promise rejects. -/
theorem C3_sink_failure_effect (s : ManagerState) (data : McStatusResponse)
    (now : Nat) (h : data.online = true) :
    (¬ notifyCondition s data →
      updateStatus s (FetchResult.ok data) true now =
        updateStatus s (FetchResult.ok data) false now) ∧
    (notifyCondition s data →
      (updateStatus s (FetchResult.ok data) true now).state.currentStatus =
        some (degradeSnapshot (some (successSnapshot data now)) now) ∧
      (updateStatus s (FetchResult.ok data) true now).sinkCalls = 2 ∧
      (updateStatus s (FetchResult.ok data) true now).rejected = true) := by
  have h' : ¬ data.online = false := by simp [h]
  have hcd : (s.currentStatus.map MinecraftStatus.playerCount ≠
      some ((data.players.map McPlayers.online).getD 0) ∧ s.discordClient = true) ↔
      notifyCondition s data := Iff.rfl
  constructor
  · intro hc
    simp only [updateStatus]
    rw [if_neg h', if_neg (fun hx => hc (hcd.mp hx)), if_neg h',
      if_neg (fun hx => hc (hcd.mp hx))]
  · intro hc
    rw [updateStatus_success_sinkThrow s data now h hc]
    exact ⟨rfl, rfl, rfl⟩

/-- C3 witness: a concrete first success cycle (count 2, client registered) with
a throwing sink stores an offline snapshot, calls the sink twice and rejects. -/
theorem C3_sink_failure_effect_witness :
    (updateStatus ⟨none, false, true⟩
      (FetchResult.ok ⟨true, some ⟨2, 10, none⟩, none, none⟩) true 5).sinkCalls = 2 ∧
    (updateStatus ⟨none, false, true⟩
      (FetchResult.ok ⟨true, some ⟨2, 10, none⟩, none, none⟩) true 5).rejected = true := by
  have hc : notifyCondition ⟨none, false, true⟩
      ⟨true, some ⟨2, 10, none⟩, none, none⟩ := by decide
  exact ⟨((C3_sink_failure_effect _ _ 5 rfl).2 hc).2.1,
    ((C3_sink_failure_effect _ _ 5 rfl).2 hc).2.2⟩

/-! ## Claim C4 -/

/-- Every failure outcome sends `updateStatusAlloc` into the `catch` block. -/
theorem updateStatusAlloc_failure (s : AllocState) (f : FetchResult) (now : Nat)
    (hf : f.isFailure) :
    updateStatusAlloc s f now = catchBranchAlloc s now := by
  cases f with
  | fetchError => rfl
  | httpError status => rfl
  | ok data =>
      unfold FetchResult.isFailure at hf
      simp [updateStatusAlloc, hf]

/-- C4 counterexample.  After a successful first cycle, `getStatus` exposes the
stored snapshot (reference `0`, reading `online = true`); a subsequent failing
cycle mutates that very record in place, so the previously returned reference now
reads `online = false` — its field values did not remain unchanged. -/
theorem C4_counterexample :
    getStatusAlloc (updateStatusAlloc ⟨[], none⟩
        (FetchResult.ok ⟨true, some ⟨5, 10, none⟩, none, none⟩) 1) = some 0 ∧
    (readRef (updateStatusAlloc ⟨[], none⟩
        (FetchResult.ok ⟨true, some ⟨5, 10, none⟩, none, none⟩) 1) 0).map
      MinecraftStatus.online = some true ∧
    getStatusAlloc (updateStatusAlloc (updateStatusAlloc ⟨[], none⟩
        (FetchResult.ok ⟨true, some ⟨5, 10, none⟩, none, none⟩) 1)
        FetchResult.fetchError 2) = some 0 ∧
    (readRef (updateStatusAlloc (updateStatusAlloc ⟨[], none⟩
        (FetchResult.ok ⟨true, some ⟨5, 10, none⟩, none, none⟩) 1)
        FetchResult.fetchError 2) 0).map MinecraftStatus.online = some false := by
  decide

/-- C4 (amended).  A success apply and a first-failure apply construct a fresh
snapshot record and repoint the cache (pre-existing records are untouched, so
references returned before a success apply keep their values); but a failure
apply with an existing snapshot mutates that snapshot in place: the current
reference is unchanged and the record it points at is overwritten with
`online = false` and a refreshed `lastUpdated` (other fields kept), so a
previously returned reference observes the change. -/
theorem C4_alloc_behavior (s : AllocState) (i : Nat) (prev : MinecraftStatus)
    (data : McStatusResponse) (f : FetchResult) (now : Nat)
    (hcur : s.cur = some i) (hheap : s.heap[i]? = some prev) :
    (f.isFailure →
      (updateStatusAlloc s f now).cur = some i ∧
      readRef (updateStatusAlloc s f now) i =
        some ⟨false, prev.playerCount, prev.maxPlayers, prev.players, prev.motd,
          prev.version, now⟩) ∧
    (data.online = true →
      (updateStatusAlloc s (FetchResult.ok data) now).cur = some s.heap.length ∧
      readRef (updateStatusAlloc s (FetchResult.ok data) now) s.heap.length =
        some (successSnapshot data now) ∧
      ∀ j, j < s.heap.length →
        readRef (updateStatusAlloc s (FetchResult.ok data) now) j = s.heap[j]?) := by
  have hlen : i < s.heap.length := (List.getElem?_eq_some.mp hheap).1
  have hcatch : catchBranchAlloc s now =
      ⟨s.heap.set i ⟨false, prev.playerCount, prev.maxPlayers, prev.players,
        prev.motd, prev.version, now⟩, s.cur⟩ := by
    unfold catchBranchAlloc
    rw [hcur]
    simp only [hheap]
  constructor
  · intro hf
    rw [updateStatusAlloc_failure s f now hf, hcatch]
    refine ⟨hcur, ?_⟩
    unfold readRef
    exact List.getElem?_set_eq_of_lt _ hlen
  · intro h
    have h' : ¬ data.online = false := by simp [h]
    have e : updateStatusAlloc s (FetchResult.ok data) now =
        if data.online = false then catchBranchAlloc s now
        else ⟨s.heap ++ [successSnapshot data now], some s.heap.length⟩ := rfl
    rw [e, if_neg h']
    refine ⟨rfl, ?_, ?_⟩
    · unfold readRef
      exact List.getElem?_concat_length _ _
    · intro j hj
      unfold readRef
      rw [List.getElem?_append]
      exact if_pos hj

/-- C4 witness: concrete instantiation of the amended behaviour — a failure apply
on a cache holding reference `0` to a 5-player online snapshot keeps the
reference and overwrites the record in place; a success apply on the same cache
allocates record `1` and leaves record `0` untouched. -/
theorem C4_alloc_behavior_witness :
    (updateStatusAlloc ⟨[⟨true, 5, 10, [], "m", "v", 1⟩], some 0⟩
        FetchResult.fetchError 2).cur = some 0 ∧
    readRef (updateStatusAlloc ⟨[⟨true, 5, 10, [], "m", "v", 1⟩], some 0⟩
        FetchResult.fetchError 2) 0 = some ⟨false, 5, 10, [], "m", "v", 2⟩ ∧
    readRef (updateStatusAlloc ⟨[⟨true, 5, 10, [], "m", "v", 1⟩], some 0⟩
        (FetchResult.ok ⟨true, some ⟨3, 10, none⟩, none, none⟩) 2) 0 =
      some ⟨true, 5, 10, [], "m", "v", 1⟩ := by
  have hb := C4_alloc_behavior ⟨[⟨true, 5, 10, [], "m", "v", 1⟩], some 0⟩ 0
    ⟨true, 5, 10, [], "m", "v", 1⟩ ⟨true, some ⟨3, 10, none⟩, none, none⟩
    FetchResult.fetchError 2 rfl rfl
  exact ⟨(hb.1 trivial).1, (hb.1 trivial).2, (hb.2 rfl).2.2 0 (by decide)⟩

/-! ## Claim C5 -/

/-- C5 counterexample.  Acquiring the shared instance with an explicitly supplied
empty-string host while no instance exists throws the configuration error, though
a host argument was given — refuting the claimed "if and only if no instance
exists yet and no host argument is given". -/
theorem C5_counterexample :
    getInstance none (some "") none none =
      Except.error "Host must be provided when creating instance" ∧
    (some "" : Option String) ≠ none :=
  ⟨rfl, by decide⟩

/-- C5 (amended).  The accessor throws immediately iff no instance exists and the
host argument is absent or the empty string; when an instance exists it is
returned unchanged regardless of the arguments; the first successful acquisition
fixes the supplied host with the defaulted port (25565) and interval (30000 ms)
for the process. -/
theorem C5_getInstance_behavior (inst : Option ManagerConfig) (host : Option String)
    (port : Option Nat) (ms : Option Nat) :
    ((∃ e, getInstance inst host port ms = Except.error e) ↔
      inst = none ∧ (host = none ∨ host = some "")) ∧
    (∀ c, inst = some c → getInstance inst host port ms = Except.ok (c, some c)) ∧
    (∀ h, inst = none → host = some h → h ≠ "" →
      getInstance inst host port ms =
        Except.ok (⟨h, port.getD 25565, ms.getD 30000⟩,
          some ⟨h, port.getD 25565, ms.getD 30000⟩)) := by
  refine ⟨?_, ?_, ?_⟩
  · cases inst with
    | some c => simp [getInstance]
    | none =>
        cases host with
        | none => simp [getInstance]
        | some h =>
            by_cases hh : h = ""
            · subst hh; simp [getInstance]
            · simp [getInstance, hh]
  · intro c hc
    subst hc
    rfl
  · intro h h1 h2 h3
    subst h1
    subst h2
    simp [getInstance, h3]

/-- C5 witness: a first acquisition with host "mc.example.com" and interval 5000
fixes `(host, 25565, 5000)`, and a later acquisition with different arguments
returns that same instance. -/
theorem C5_getInstance_behavior_witness :
    getInstance none (some "mc.example.com") none (some 5000) =
      Except.ok (⟨"mc.example.com", 25565, 5000⟩, some ⟨"mc.example.com", 25565, 5000⟩) ∧
    getInstance (some ⟨"mc.example.com", 25565, 5000⟩) (some "other.host") (some 1) (some 2) =
      Except.ok (⟨"mc.example.com", 25565, 5000⟩, some ⟨"mc.example.com", 25565, 5000⟩) := by
  constructor
  · exact (C5_getInstance_behavior none (some "mc.example.com") none (some 5000)).2.2
      "mc.example.com" rfl rfl (by decide)
  · exact (C5_getInstance_behavior (some ⟨"mc.example.com", 25565, 5000⟩)
      (some "other.host") (some 1) (some 2)).2.1 ⟨"mc.example.com", 25565, 5000⟩ rfl

/-! ## Claim C6 -/

/-- C6.  `start` on a running poller is a recorded no-op: no fetch runs, no
second timer is armed, the state is untouched.  `start` on an idle poller runs
one immediate fetch-apply-notify cycle (on the state with the client recorded)
and then arms the repeating timer. -/
theorem C6_start_idempotent (s : ManagerState) (f : FetchResult) (now : Nat) :
    (s.running = true →
      start s f false now = ⟨s, false, false, 0⟩) ∧
    (s.running = false →
      start s f false now =
        ⟨⟨(updateStatus ⟨s.currentStatus, s.running, true⟩ f false now).state.currentStatus,
            true,
            (updateStatus ⟨s.currentStatus, s.running, true⟩ f false now).state.discordClient⟩,
          true, true,
          (updateStatus ⟨s.currentStatus, s.running, true⟩ f false now).sinkCalls⟩) := by
  constructor
  · intro h
    unfold start
    rw [if_pos h]
  · intro h
    unfold start
    rw [if_neg (by simp [h])]
    have hr := updateStatus_rejected_false { s with discordClient := true } f now
    simp only [hr]
    rfl

/-- C6 witness: `start` on a concrete running poller changes nothing and runs no
cycle; `start` on a concrete idle poller runs the cycle and arms the timer. -/
theorem C6_start_idempotent_witness :
    start ⟨some ⟨true, 4, 20, [], "", "Unknown", 1⟩, true, true⟩
        FetchResult.fetchError false 2 =
      ⟨⟨some ⟨true, 4, 20, [], "", "Unknown", 1⟩, true, true⟩, false, false, 0⟩ ∧
    (start ⟨none, false, false⟩
        (FetchResult.ok ⟨true, some ⟨3, 10, none⟩, none, none⟩) false 2).cycleRan = true ∧
    (start ⟨none, false, false⟩
        (FetchResult.ok ⟨true, some ⟨3, 10, none⟩, none, none⟩) false 2).armedTimer = true ∧
    (start ⟨none, false, false⟩
        (FetchResult.ok ⟨true, some ⟨3, 10, none⟩, none, none⟩) false 2).state.running = true := by
  refine ⟨(C6_start_idempotent _ FetchResult.fetchError 2).1 rfl, ?_, ?_, ?_⟩ <;>
    rw [(C6_start_idempotent ⟨none, false, false⟩
      (FetchResult.ok ⟨true, some ⟨3, 10, none⟩, none, none⟩) 2).2 rfl]

/-! ## Claim C7 -/

/-- C7.  A failing cycle with no previous snapshot stores exactly the synthesized
all-zero/empty offline snapshot, stamped with the cycle's time. -/
theorem C7_first_failure_synthesis (s : ManagerState) (f : FetchResult) (st : Bool)
    (now : Nat) (hnone : s.currentStatus = none) (hf : f.isFailure) :
    (updateStatus s f st now).state.currentStatus =
      some ⟨false, 0, 0, [], "", "", now⟩ := by
  rw [updateStatus_failure s f st now hf, catchBranch_state]
  simp [hnone, degradeSnapshot, offlineSnapshot]

/-- C7 witness: a poller whose very first cycle fails with HTTP 500 at time 9
stores the all-zero offline snapshot stamped 9. -/
theorem C7_first_failure_synthesis_witness :
    (updateStatus ⟨none, false, true⟩ (FetchResult.httpError 500) false 9).state.currentStatus =
      some ⟨false, 0, 0, [], "", "", 9⟩ :=
  C7_first_failure_synthesis ⟨none, false, true⟩ (FetchResult.httpError 500) false 9
    rfl trivial

/-! ## Claim C8 -/

/-- C8 counterexample.  A successful response whose count field says 5 players
but whose roster lists exactly one produces a stored snapshot with a non-empty
`players` of length 1 and `playerCount = 5` — the apply does not enforce
`playerCount == len(players)` on non-empty rosters. -/
theorem C8_counterexample :
    ∃ q, (updateStatus ⟨none, false, false⟩
        (FetchResult.ok ⟨true, some ⟨5, 10, some [⟨"alice", "u1"⟩]⟩, none, none⟩)
        false 3).state.currentStatus = some q ∧
      q.players ≠ [] ∧ q.playerCount ≠ q.players.length := by
  refine ⟨successSnapshot ⟨true, some ⟨5, 10, some [⟨"alice", "u1"⟩]⟩, none, none⟩ 3,
    ?_, ?_, ?_⟩ <;> decide

/-- C8 (amended).  The apply preserves the invariant rather than enforcing it: a
success apply stores the decoded snapshot without error, its `playerCount` is the
response's count and its roster length the response's roster length, so whenever
the response itself satisfies count = roster length the snapshot satisfies the
invariant; a snapshot with empty `players` and positive `playerCount` is stored
as-is; and a failure apply preserves the invariant of the previous snapshot. -/
theorem C8_invariant_preserved (s : ManagerState) (data : McStatusResponse)
    (f : FetchResult) (prev : MinecraftStatus) (now : Nat) :
    (data.online = true →
      (updateStatus s (FetchResult.ok data) false now).state.currentStatus =
        some (successSnapshot data now) ∧
      (updateStatus s (FetchResult.ok data) false now).rejected = false ∧
      (successSnapshot data now).playerCount = (data.players.map McPlayers.online).getD 0 ∧
      (successSnapshot data now).players.length =
        ((data.players.bind McPlayers.list).getD []).length ∧
      ((data.players.map McPlayers.online).getD 0 =
          ((data.players.bind McPlayers.list).getD []).length →
        statusInv (successSnapshot data now))) ∧
    (f.isFailure → s.currentStatus = some prev → statusInv prev →
      ∀ q, (updateStatus s f false now).state.currentStatus = some q → statusInv q) := by
  have hlen : (successSnapshot data now).players.length =
      ((data.players.bind McPlayers.list).getD []).length := by
    cases hl : data.players.bind McPlayers.list <;> simp [successSnapshot, hl]
  constructor
  · intro h
    rw [updateStatus_success s data now h]
    refine ⟨rfl, rfl, rfl, hlen, ?_⟩
    intro he _
    rw [← hlen] at he
    exact he
  · intro hf hprev hinv q hq
    rw [updateStatus_failure s f false now hf, catchBranch_state] at hq
    simp [hprev, degradeSnapshot] at hq
    intro hne
    rw [← hq] at hne ⊢
    exact hinv hne

/-- C8 witness: a consistent response (count 1, roster of one) is stored and
satisfies the invariant; a roster-less response with count 7 is stored with
empty `players` and `playerCount = 7` without error. -/
theorem C8_invariant_preserved_witness :
    (updateStatus ⟨none, false, false⟩
        (FetchResult.ok ⟨true, some ⟨1, 10, some [⟨"alice", "u1"⟩]⟩, none, none⟩)
        false 3).state.currentStatus =
      some (successSnapshot ⟨true, some ⟨1, 10, some [⟨"alice", "u1"⟩]⟩, none, none⟩ 3) ∧
    statusInv (successSnapshot ⟨true, some ⟨1, 10, some [⟨"alice", "u1"⟩]⟩, none, none⟩ 3) ∧
    (updateStatus ⟨none, false, false⟩
        (FetchResult.ok ⟨true, some ⟨7, 10, none⟩, none, none⟩) false 3).state.currentStatus =
      some (successSnapshot ⟨true, some ⟨7, 10, none⟩, none, none⟩ 3) ∧
    (successSnapshot ⟨true, some ⟨7, 10, none⟩, none, none⟩ 3).players = [] ∧
    (successSnapshot ⟨true, some ⟨7, 10, none⟩, none, none⟩ 3).playerCount = 7 := by
  refine ⟨((C8_invariant_preserved ⟨none, false, false⟩
      ⟨true, some ⟨1, 10, some [⟨"alice", "u1"⟩]⟩, none, none⟩ FetchResult.fetchError
      ⟨true, 0, 0, [], "", "", 0⟩ 3).1 rfl).1,
    ((C8_invariant_preserved ⟨none, false, false⟩
      ⟨true, some ⟨1, 10, some [⟨"alice", "u1"⟩]⟩, none, none⟩ FetchResult.fetchError
      ⟨true, 0, 0, [], "", "", 0⟩ 3).1 rfl).2.2.2.2 (by decide),
    ((C8_invariant_preserved ⟨none, false, false⟩
      ⟨true, some ⟨7, 10, none⟩, none, none⟩ FetchResult.fetchError
      ⟨true, 0, 0, [], "", "", 0⟩ 3).1 rfl).1, by decide, by decide⟩

/-! ## Claim C9 -/

/-- C9.  `stop` is idempotent, only clears the timer, and leaves the cached
snapshot (and the registered client) readable and unchanged. -/
theorem C9_stop_frame (s : ManagerState) :
    getStatus (stop s) = getStatus s ∧ (stop s).running = false ∧
    (stop s).discordClient = s.discordClient ∧ stop (stop s) = stop s := by
  unfold stop getStatus
  by_cases h : s.running = true <;> simp [h]

/-! ## Claim C10 -/

/-- C10.  On a poller's very first successful cycle with a registered client, the
sink is always invoked: the absent previous snapshot makes the previous player
count undefined, which is `!==`-different from every new count — including 0. -/
theorem C10_first_success_always_notifies (s : ManagerState) (data : McStatusResponse)
    (now : Nat) (h1 : s.currentStatus = none) (h2 : s.discordClient = true)
    (h3 : data.online = true) :
    (updateStatus s (FetchResult.ok data) false now).sinkCalls = 1 := by
  rw [updateStatus_success s data now h3]
  have hc : notifyCondition s data := ⟨by simp [h1], h2⟩
  simp [hc]

/-- C10 witness: a first success cycle reporting zero players still invokes the
sink once. -/
theorem C10_first_success_always_notifies_witness :
    (updateStatus ⟨none, false, true⟩
      (FetchResult.ok ⟨true, some ⟨0, 10, none⟩, none, none⟩) false 0).sinkCalls = 1 :=
  C10_first_success_always_notifies ⟨none, false, true⟩
    ⟨true, some ⟨0, 10, none⟩, none, none⟩ 0 rfl rfl rfl
